import Mathlib

/-!
Shallow embedding of the CentOS provisioner of `packethost/machine`
(package `libmachine/provision`), covering two variants present in the
sources:

* the template-based provisioner (the file with `GenerateDockerOptions`
  rendering a `text/template` engine configuration), embedded in the
  `Centos` namespace;
* the older provisioner in `libmachine/provision/centos.go` (no
  `Upgrade` case in `Package`, `fmt.Sprintf`-based
  `GenerateDockerOptions`), embedded in the `CentosLegacy` namespace.

Go pointer/struct state is modelled by explicit state passing: methods
that mutate the provisioner return the updated `CentosProvisioner`
value.  The nilable `*OsRelease` field is an `Option OsRelease`, and a
nil dereference is modelled as `Option.none` in results.  Remote SSH
execution is modelled by an outcome oracle supplied to the functions
that perform it.
-/

/-- Modelled from the spec: the `pkgaction.PackageAction` enumeration
(the `pkgaction` package is not among the sources); the spec describes
the action set as the union of Install, Remove and Upgrade. -/
inductive PackageAction where
  | install
  | remove
  | upgrade
deriving DecidableEq

/-- Modelled from the spec: the detected `OsRelease` record with its
`id` field (exact-match identifier) and `like` field (the `ID_LIKE`
fallback the spec says is never consulted); the `OsRelease` struct is
defined outside the given sources. -/
structure OsRelease where
  id : String
  like : String
deriving DecidableEq

/-- The subset of `drivers.Driver` the provisioner consults:
`DriverName()` and `GetMachineName()`. -/
structure Driver where
  driverName : String
  machineName : String
deriving DecidableEq

/-- `auth.AuthOptions`, restricted to the remote certificate paths the
engine-config template reads. -/
structure AuthOptions where
  caCertRemotePath : String
  serverCertRemotePath : String
  serverKeyRemotePath : String
deriving DecidableEq

/-- `engine.EngineOptions`, restricted to the fields the engine-config
template reads. -/
structure EngineOptions where
  storageDriver : String
  labels : List String
  insecureRegistry : List String
  registryMirror : List String
  arbitraryFlags : List String
deriving DecidableEq

/-- `swarm.SwarmOptions`; none of its fields are consulted by the
embedded code paths. -/
structure SwarmOptions where
deriving DecidableEq

/-- `provision.DockerOptions` as returned by `GenerateDockerOptions`. -/
structure DockerOptions where
  engineOptions : String
  engineOptionsPath : String
deriving DecidableEq

namespace Centos

/-- The `CentosProvisioner` struct of the template-based variant. -/
structure CentosProvisioner where
  packages : List String
  osReleaseInfo : Option OsRelease
  driver : Driver
  authOptions : AuthOptions
  engineOptions : EngineOptions
  swarmOptions : SwarmOptions
deriving DecidableEq

/-- `NewCentosProvisioner`: baseline package list `["curl"]`, all other
fields Go zero values (nil `OsReleaseInfo`, zero-valued options). -/
def newCentosProvisioner (d : Driver) : CentosProvisioner :=
  { packages := ["curl"]
    osReleaseInfo := none
    driver := d
    authOptions := { caCertRemotePath := "", serverCertRemotePath := "", serverKeyRemotePath := "" }
    engineOptions := { storageDriver := "", labels := [], insecureRegistry := [], registryMirror := [], arbitraryFlags := [] }
    swarmOptions := {} }

/-- `CompatibleWithHost`: `provisioner.OsReleaseInfo.Id == "centos"`.
The receiver field is a nilable pointer, so the result is `none` when
`SetOsReleaseInfo` has not supplied a value (the Go code would panic on
the nil dereference). -/
def compatibleWithHost (p : CentosProvisioner) : Option Bool :=
  p.osReleaseInfo.map (fun info => info.id == "centos")

/-- `SetOsReleaseInfo`: stores the given release record. -/
def setOsReleaseInfo (p : CentosProvisioner) (info : OsRelease) : CentosProvisioner :=
  { p with osReleaseInfo := some info }

/-- `GetDockerOptionsDir`: the constant `/etc/default/docker`. -/
def getDockerOptionsDir (_p : CentosProvisioner) : String :=
  "/etc/default/docker"

/-- One `{{ range }}` group of the engine-config template: for each
element the literal flag text, the element, then a newline; nothing for
the empty list. -/
def renderGroup (flg : String) : List String → String
  | [] => ""
  | x :: xs => flg ++ x ++ "\n" ++ renderGroup flg xs

/-- The fixed text of the template before the first `{{ range }}`
group: the banner, both `-H` hosts, storage driver and TLS material. -/
def engineConfigHeader (dockerPort : Int) (auth : AuthOptions) (storageDriver : String) : String :=
  "\nOPTIONS=\x27\n-H tcp://0.0.0.0:" ++ toString dockerPort
    ++ "\n-H unix:///var/run/docker.sock\n--storage-driver " ++ storageDriver
    ++ "\n--tlsverify\n--tlscacert " ++ auth.caCertRemotePath
    ++ "\n--tlscert " ++ auth.serverCertRemotePath
    ++ "\n--tlskey " ++ auth.serverKeyRemotePath ++ "\n"

/-- Rendering of `engineConfigTmpl` against an `EngineConfigContext`:
header, then the four repeated-flag groups, then the closing quote. -/
def renderEngineConfig (dockerPort : Int) (auth : AuthOptions) (eo : EngineOptions) : String :=
  engineConfigHeader dockerPort auth eo.storageDriver
    ++ renderGroup "--label " eo.labels
    ++ renderGroup "--insecure-registry " eo.insecureRegistry
    ++ renderGroup "--registry-mirror " eo.registryMirror
    ++ renderGroup "--" eo.arbitraryFlags
    ++ "\n\x27\n"

/-- `GenerateDockerOptions` of the template variant.  It first appends
`provider=<driver-name>` to `provisioner.EngineOptions.Labels` (a
mutation of the receiver, returned here as the second component), then
renders the template over the updated options and returns the text with
the fixed path `/etc/sysconfig/docker`. -/
def generateDockerOptions (p : CentosProvisioner) (dockerPort : Int) : DockerOptions × CentosProvisioner :=
  let driverNameLabel := "provider=" ++ p.driver.driverName
  let p' := { p with engineOptions :=
    { p.engineOptions with labels := p.engineOptions.labels ++ [driverNameLabel] } }
  ({ engineOptions := renderEngineConfig dockerPort p'.authOptions p'.engineOptions
     engineOptionsPath := "/etc/sysconfig/docker" }, p')

/-- `Package`'s OS-specific verb: the `switch` covers all three
actions in this variant. -/
def packageActionVerb : PackageAction → String
  | .install => "install"
  | .remove => "remove"
  | .upgrade => "upgrade"

/-- The command line `Package` issues over SSH:
`sudo -E yum -y <verb> <name>`. -/
def packageCommand (name : String) (action : PackageAction) : String :=
  "sudo -E yum -y " ++ packageActionVerb action ++ " " ++ name

/-- The raw SSH command fixing the CentOS `requiretty` sudo bug, the
first statement of `Provision`. -/
def sudoersTtyFixCmd : String :=
  "-t sed -i \x27s/^Defaults.*requiretty$/#\\ commented\\ out\\ by\\ docker\\ machine\\n#Defaults\\ \\ \\ \\ requiretty/g\x27 /etc/sudoers"

/-- The raw SSH command of the `yum update` step of `Provision`. -/
def yumUpdateCmd : String := "yum -y update"

/-- The raw SSH command configuring firewalld for the Docker daemon
port, issued by `Provision` after the package installs. -/
def firewalldConfigCmd : String :=
  "printf \x27<?xml version=\"1.0\" encoding=\"utf-8\"?>\n<service>\n  <short>Docker Daemon</short>\n  <port protocol=\"tcp\" port=\"2376\"/>\n</service>\n\x27 > /etc/firewalld/services/docker.xml && sed -i \x27s/<\\/zone>/  <service name=\\\"docker\\\"\\/>\\n<\\/zone>/g\x27 /etc/firewalld/zones/public.xml && service firewalld restart"

/-- One error-gated statement of `Provision` (each
`if err := ...; err != nil { return err }` block is one step;
`SetHostname` is a single gated step even though it issues two SSH
commands internally). -/
inductive ProvisionStep where
  | sshStep (cmd : String)
  | setHostnameStep (hostname : String)
  | packageStep (name : String) (action : PackageAction)
  | installDockerGenericStep
  | waitForDockerStep
  | makeDockerOptionsDirStep
  | configureAuthStep
  | configureSwarmStep
deriving DecidableEq

/-- The statement sequence of `Provision`, in source order: sudoers
fix, hostname, yum update, one install per baseline package (in list
order), firewalld, generic Docker install, daemon wait, options dir,
auth, swarm. -/
def provisionSteps (p : CentosProvisioner) : List ProvisionStep :=
  [ProvisionStep.sshStep sudoersTtyFixCmd,
   ProvisionStep.setHostnameStep p.driver.machineName,
   ProvisionStep.sshStep yumUpdateCmd]
  ++ p.packages.map (fun pkg => ProvisionStep.packageStep pkg PackageAction.install)
  ++ [ProvisionStep.sshStep firewalldConfigCmd,
      ProvisionStep.installDockerGenericStep,
      ProvisionStep.waitForDockerStep,
      ProvisionStep.makeDockerOptionsDirStep,
      ProvisionStep.configureAuthStep,
      ProvisionStep.configureSwarmStep]

/-- An error value returned by a failing provisioning step. -/
structure ProvisionError where
  message : String
deriving DecidableEq

/-- Executes steps in order against an outcome oracle (indexed by step
position): on the first step whose outcome is an error, that error is
returned and no later step runs.  Returns the list of steps actually
executed (the failing step included) together with the final result
(`none` is a nil error). -/
def runSteps (oracle : Nat → Option ProvisionError) : List ProvisionStep → Nat → List ProvisionStep × Option ProvisionError
  | [], _ => ([], none)
  | s :: rest, k =>
    match oracle k with
    | some e => ([s], some e)
    | none =>
      let r := runSteps oracle rest (k + 1)
      (s :: r.1, r.2)

/-- `Provision(swarmOptions, authOptions, engineOptions)`: stores the
three option records on the receiver, then runs the step sequence.
Returns the executed trace, the final error result, and the updated
provisioner. -/
def provision (p : CentosProvisioner) (swarmOpts : SwarmOptions) (authOpts : AuthOptions)
    (engineOpts : EngineOptions) (oracle : Nat → Option ProvisionError) :
    (List ProvisionStep × Option ProvisionError) × CentosProvisioner :=
  let p' := { p with swarmOptions := swarmOpts, authOptions := authOpts, engineOptions := engineOpts }
  (runSteps oracle (provisionSteps p') 0, p')

/-- The output of a successful SSH command. -/
structure SshOutput where
  stdoutData : String
deriving DecidableEq

/-- An error from running an SSH command. -/
structure SshError where
  message : String
deriving DecidableEq

/-- `dockerDaemonResponding`: runs `sudo docker version` through the
given SSH executor; a command error yields `false` (logged as a
warning, not propagated), success yields `true`. -/
def dockerDaemonResponding (ssh : String → Except SshError SshOutput) : Bool :=
  match ssh "sudo docker version" with
  | .error _ => false
  | .ok _ => true

/-- The readiness poller's failure value. -/
inductive WaitError where
  | readinessTimeout
deriving DecidableEq

/-- Modelled from the spec: `utils.WaitFor` (the `utils` package is not
among the sources) polls the probe at a fixed interval, returning
success as soon as the probe first returns true and a timeout error if
the probe always returns false until the attempt budget is exhausted.
`k` is the index of the current attempt, the last argument the number
of attempts remaining. -/
def waitForFrom (probe : Nat → Bool) (k : Nat) : Nat → Except WaitError Unit
  | 0 => Except.error WaitError.readinessTimeout
  | n + 1 => if probe k then Except.ok () else waitForFrom probe (k + 1) n

/-- Modelled from the spec: the readiness poller entry point, starting
at attempt 0 with the configured attempt budget. -/
def waitFor (probe : Nat → Bool) (maxAttempts : Nat) : Except WaitError Unit :=
  waitForFrom probe 0 maxAttempts

end Centos

namespace CentosLegacy

/-- `Package`'s verb in `libmachine/provision/centos.go`: the `switch`
has arms only for `Install` and `Remove`, so for `Upgrade` the
variable keeps Go's zero value `""`. -/
def packageActionVerb : PackageAction → String
  | .install => "install"
  | .remove => "remove"
  | .upgrade => ""

/-- The command line `Package` of `centos.go` issues over SSH:
`sudo -E yum -y <verb> <name>` (with the verb empty for `Upgrade`). -/
def packageCommand (name : String) (action : PackageAction) : String :=
  "sudo -E yum -y " ++ packageActionVerb action ++ " " ++ name

/-- `GetDockerOptionsDir` of `centos.go`: the constant
`/etc/default/docker`. -/
def getDockerOptionsDir : String :=
  "/etc/default/docker"

/-- `GenerateDockerOptions` of `centos.go`: `getDefaultDaemonOpts` is
defined outside the given sources, so its result is a parameter. -/
def generateDockerOptions (defaultDaemonOpts : String) (dockerPort : Int) : DockerOptions :=
  { engineOptions := "OPTIONS=\x27" ++ defaultDaemonOpts ++ " "
      ++ "--host=unix:///var/run/docker.sock --host=tcp://0.0.0.0:" ++ toString dockerPort ++ "\x27"
    engineOptionsPath := "/etc/sysconfig/docker" }

end CentosLegacy

/-- A predicate picking out the package-management steps of a
provisioning trace. -/
def Centos.isPackageStep : Centos.ProvisionStep → Bool
  | .packageStep _ _ => true
  | _ => false

/-- The readiness probe as polled by `utils.WaitFor`: attempt `k` runs
`dockerDaemonResponding` against the SSH executor of attempt `k`. -/
def Centos.dockerProbe (sshAt : Nat → String → Except Centos.SshError Centos.SshOutput) : Nat → Bool :=
  fun k => Centos.dockerDaemonResponding (sshAt k)

lemma join_cons_eq (a : String) (l : List String) : String.join (a :: l) = a ++ String.join l := by
  apply String.ext
  simp [String.join_eq, String.data_append]

lemma renderGroup_join (flg : String) : ∀ xs : List String,
    Centos.renderGroup flg xs = String.join (xs.map (fun x => flg ++ x ++ "\n"))
  | [] => by simp [Centos.renderGroup]; rfl
  | x :: xs => by
    rw [List.map_cons, join_cons_eq, Centos.renderGroup, renderGroup_join flg xs]

lemma renderGroup_snoc (flg y : String) : ∀ xs : List String,
    Centos.renderGroup flg (xs ++ [y]) = Centos.renderGroup flg xs ++ (flg ++ y ++ "\n")
  | [] => by
    apply String.ext
    simp [Centos.renderGroup, String.data_append]
  | x :: xs => by
    rw [List.cons_append, Centos.renderGroup, Centos.renderGroup, renderGroup_snoc flg y xs]
    simp [String.append_assoc]

lemma runSteps_trace_initial (oracle : Nat → Option Centos.ProvisionError) :
    ∀ (l : List Centos.ProvisionStep) (k : Nat), (Centos.runSteps oracle l k).1 <+: l := by
  intro l
  induction l with
  | nil => intro k; simp [Centos.runSteps]
  | cons s rest ih =>
    intro k
    simp only [Centos.runSteps]
    cases h : oracle k with
    | some e => exact ⟨rest, rfl⟩
    | none =>
      obtain ⟨r, hr⟩ := ih (k + 1)
      exact ⟨r, by rw [List.cons_append, hr]⟩

lemma runSteps_all_ok (oracle : Nat → Option Centos.ProvisionError) (hok : ∀ n, oracle n = none) :
    ∀ (l : List Centos.ProvisionStep) (k : Nat), Centos.runSteps oracle l k = (l, none) := by
  intro l
  induction l with
  | nil => intro k; simp [Centos.runSteps]
  | cons s rest ih => intro k; simp [Centos.runSteps, hok k, ih (k + 1)]

lemma runSteps_first_fail (oracle : Nat → Option Centos.ProvisionError) :
    ∀ (l : List Centos.ProvisionStep) (k i : Nat) (e : Centos.ProvisionError),
      (∀ j, j < i → oracle (k + j) = none) → oracle (k + i) = some e → i < l.length →
      Centos.runSteps oracle l k = (l.take (i + 1), some e) := by
  intro l
  induction l with
  | nil => intro k i e _ _ hlen; exact absurd hlen (by simp)
  | cons s rest ih =>
    intro k i e hnone hfail hlen
    cases i with
    | zero =>
      have h0 : oracle k = some e := by simpa using hfail
      simp [Centos.runSteps, h0]
    | succ j =>
      have h0 : oracle k = none := by simpa using hnone 0 (Nat.succ_pos j)
      have hrec := ih (k + 1) j e
        (fun j' hj' => by
          have hx := hnone (j' + 1) (by omega)
          have heq : k + (j' + 1) = k + 1 + j' := by omega
          rwa [heq] at hx)
        (by
          have heq : k + (j + 1) = k + 1 + j := by omega
          rwa [heq] at hfail)
        (by simpa using Nat.lt_of_succ_lt_succ hlen)
      simp [Centos.runSteps, h0, hrec]

/-- A concrete driver used to instantiate universally quantified
statements. -/
def sampleDriver : Driver := { driverName := "testdriver", machineName := "testmachine" }

/-- A concrete detected OS release. -/
def sampleOsRelease : OsRelease := { id := "centos", like := "rhel fedora" }

/-- Concrete auth options. -/
def sampleAuthOptions : AuthOptions :=
  { caCertRemotePath := "/var/lib/machine/ca.pem"
    serverCertRemotePath := "/var/lib/machine/server.pem"
    serverKeyRemotePath := "/var/lib/machine/server-key.pem" }

/-- Concrete engine options. -/
def sampleEngineOptions : EngineOptions :=
  { storageDriver := "devicemapper", labels := [], insecureRegistry := [], registryMirror := [], arbitraryFlags := [] }

/-- A step-outcome oracle on which every step succeeds. -/
def allOkOracle : Nat → Option Centos.ProvisionError := fun _ => none

/-- A step-outcome oracle on which the fourth step (the `curl` package
install, at position 3) fails. -/
def failAtPackageOracle : Nat → Option Centos.ProvisionError :=
  fun k => if k = 3 then some { message := "install failed" } else none

/-- An SSH executor on which every command succeeds. -/
def sampleSshOk : String → Except Centos.SshError Centos.SshOutput :=
  fun _ => Except.ok { stdoutData := "Docker version" }

/-- C10: for every port (and, in the legacy variant, every default
daemon options string), the `DockerOptions` returned by
`GenerateDockerOptions` carries the fixed remote path
`/etc/sysconfig/docker`, `GetDockerOptionsDir` always returns
`/etc/default/docker`, and the two constants are distinct. -/
theorem generateDockerOptions_paths (p : Centos.CentosProvisioner) (port : Int) (defaults : String) :
    ((Centos.generateDockerOptions p port).1).engineOptionsPath = "/etc/sysconfig/docker"
    ∧ Centos.getDockerOptionsDir p = "/etc/default/docker"
    ∧ (CentosLegacy.generateDockerOptions defaults port).engineOptionsPath = "/etc/sysconfig/docker"
    ∧ CentosLegacy.getDockerOptionsDir = "/etc/default/docker"
    ∧ ("/etc/sysconfig/docker" : String) ≠ "/etc/default/docker" :=
  ⟨rfl, rfl, rfl, rfl, by decide⟩

/-- C7: `CompatibleWithHost` answers `true` exactly when the detected
`OsRelease.id` is the exact string "centos"; the answer is a function
of the `id` field alone (two provisioners whose release records agree
on `id` get the same answer, whatever their `like` fields hold). -/
theorem compatibleWithHost_iff_id_centos (p : Centos.CentosProvisioner) (osr : OsRelease)
    (hset : p.osReleaseInfo = some osr) :
    (Centos.compatibleWithHost p = some true ↔ osr.id = "centos")
    ∧ Centos.compatibleWithHost p = some (osr.id == "centos")
    ∧ (∀ (q : Centos.CentosProvisioner) (osr' : OsRelease), q.osReleaseInfo = some osr' →
        osr'.id = osr.id → Centos.compatibleWithHost q = Centos.compatibleWithHost p) := by
  refine ⟨?_, ?_, ?_⟩
  · simp [Centos.compatibleWithHost, hset]
  · simp [Centos.compatibleWithHost, hset]
  · intro q osr' hq hid
    simp [Centos.compatibleWithHost, hset, hq, hid]

/-- Witness for C7 at a concrete provisioner whose release id is
"centos". -/
theorem compatibleWithHost_iff_id_centos_witness :
    Centos.compatibleWithHost
        (Centos.setOsReleaseInfo (Centos.newCentosProvisioner sampleDriver) sampleOsRelease)
      = some (sampleOsRelease.id == "centos") :=
  (compatibleWithHost_iff_id_centos
    (Centos.setOsReleaseInfo (Centos.newCentosProvisioner sampleDriver) sampleOsRelease)
    sampleOsRelease rfl).2.1

/-- C9: a provisioner fresh from `NewCentosProvisioner` has no
OS-release information (`nil` pointer, modelled as `none`), so
`CompatibleWithHost` on it dereferences nothing and is only defined
after `SetOsReleaseInfo`: it is defined exactly when the release info
is present, and always defined after `SetOsReleaseInfo`. -/
theorem compatibleWithHost_requires_osReleaseInfo (d : Driver) (p : Centos.CentosProvisioner)
    (info : OsRelease) :
    (Centos.newCentosProvisioner d).osReleaseInfo = none
    ∧ Centos.compatibleWithHost (Centos.newCentosProvisioner d) = none
    ∧ Centos.compatibleWithHost (Centos.setOsReleaseInfo p info) = some (info.id == "centos")
    ∧ (∀ q : Centos.CentosProvisioner, (Centos.compatibleWithHost q).isSome ↔ q.osReleaseInfo.isSome) := by
  refine ⟨rfl, rfl, rfl, ?_⟩
  intro q
  cases hq : q.osReleaseInfo <;> simp [Centos.compatibleWithHost, hq]

/-- C4: the label set rendered by `GenerateDockerOptions` is the input
labels with `provider=<driver-name>` appended, and the configuration
text therefore contains the `--label provider=<driver-name>` line, for
every driver name and every input label list. -/
theorem generateDockerOptions_contains_provider_label (p : Centos.CentosProvisioner) (port : Int) :
    ((Centos.generateDockerOptions p port).2).engineOptions.labels
      = p.engineOptions.labels ++ ["provider=" ++ p.driver.driverName]
    ∧ ∃ pre post : String,
      ((Centos.generateDockerOptions p port).1).engineOptions
        = pre ++ ("--label " ++ ("provider=" ++ p.driver.driverName) ++ "\n") ++ post := by
  refine ⟨rfl, Centos.engineConfigHeader port p.authOptions p.engineOptions.storageDriver
      ++ Centos.renderGroup "--label " p.engineOptions.labels,
    Centos.renderGroup "--insecure-registry " p.engineOptions.insecureRegistry
      ++ Centos.renderGroup "--registry-mirror " p.engineOptions.registryMirror
      ++ Centos.renderGroup "--" p.engineOptions.arbitraryFlags ++ "\n\x27\n", ?_⟩
  show Centos.renderEngineConfig port p.authOptions
      { p.engineOptions with
        labels := p.engineOptions.labels ++ ["provider=" ++ p.driver.driverName] } = _
  simp only [Centos.renderEngineConfig, renderGroup_snoc]
  simp [String.append_assoc]

/-- C5: the configuration text decomposes as the fixed header, then,
for each repeated flag group in template order, the concatenation of
exactly one flag line per list element, preserving the list's order
(the labels group runs over the input labels with the provider label
appended), then the closing quote; an empty source list contributes
nothing to the text. -/
theorem generateDockerOptions_flag_groups (p : Centos.CentosProvisioner) (port : Int) :
    ((Centos.generateDockerOptions p port).1).engineOptions
      = Centos.engineConfigHeader port p.authOptions p.engineOptions.storageDriver
        ++ String.join ((p.engineOptions.labels ++ ["provider=" ++ p.driver.driverName]).map
            (fun x => "--label " ++ x ++ "\n"))
        ++ String.join (p.engineOptions.insecureRegistry.map
            (fun x => "--insecure-registry " ++ x ++ "\n"))
        ++ String.join (p.engineOptions.registryMirror.map
            (fun x => "--registry-mirror " ++ x ++ "\n"))
        ++ String.join (p.engineOptions.arbitraryFlags.map
            (fun x => "--" ++ x ++ "\n"))
        ++ "\n\x27\n"
    ∧ (∀ flg : String,
        String.join (List.map (fun x => flg ++ x ++ "\n") ([] : List String)) = "")
    ∧ (∀ (flg : String) (xs : List String),
        (xs.map (fun x => flg ++ x ++ "\n")).length = xs.length) := by
  refine ⟨?_, fun flg => rfl, fun flg xs => by simp⟩
  show Centos.renderEngineConfig port p.authOptions
      { p.engineOptions with
        labels := p.engineOptions.labels ++ ["provider=" ++ p.driver.driverName] } = _
  simp only [Centos.renderEngineConfig, renderGroup_join]

/-- C1, counterexample: calling `GenerateDockerOptions` twice in a row
with the same port does not give byte-identical text, because the
first call appended `provider=testdriver` to the provisioner's stored
label list and the second call renders (and re-appends) it again. -/
theorem generateDockerOptions_not_repeat_stable :
    ((Centos.generateDockerOptions
        ((Centos.generateDockerOptions (Centos.newCentosProvisioner sampleDriver) 2376).2)
        2376).1).engineOptions
      ≠ ((Centos.generateDockerOptions (Centos.newCentosProvisioner sampleDriver) 2376).1).engineOptions := by
  decide

/-- C1, amended: rendering is a deterministic function of its inputs
(driver name, auth options, structured engine options and port): two
provisioners agreeing on those produce byte-identical `DockerOptions`.
But each call also appends `provider=<driver-name>` to the stored
label list, so repeated calls on the same provisioner see changed
hidden state (see the counterexample). -/
theorem generateDockerOptions_deterministic (p₁ p₂ : Centos.CentosProvisioner) (port : Int)
    (hdrv : p₁.driver.driverName = p₂.driver.driverName)
    (hauth : p₁.authOptions = p₂.authOptions)
    (heng : p₁.engineOptions = p₂.engineOptions) :
    (Centos.generateDockerOptions p₁ port).1 = (Centos.generateDockerOptions p₂ port).1
    ∧ ((Centos.generateDockerOptions p₁ port).2).engineOptions.labels
        = p₁.engineOptions.labels ++ ["provider=" ++ p₁.driver.driverName] := by
  refine ⟨?_, rfl⟩
  simp only [Centos.generateDockerOptions, hdrv, hauth, heng]

/-- Witness for the amended C1 at a concrete provisioner and port. -/
theorem generateDockerOptions_deterministic_witness :
    (Centos.generateDockerOptions (Centos.newCentosProvisioner sampleDriver) 2376).1
      = (Centos.generateDockerOptions (Centos.newCentosProvisioner sampleDriver) 2376).1
    ∧ ((Centos.generateDockerOptions (Centos.newCentosProvisioner sampleDriver) 2376).2).engineOptions.labels
      = (Centos.newCentosProvisioner sampleDriver).engineOptions.labels
        ++ ["provider=" ++ (Centos.newCentosProvisioner sampleDriver).driver.driverName] :=
  generateDockerOptions_deterministic (Centos.newCentosProvisioner sampleDriver)
    (Centos.newCentosProvisioner sampleDriver) 2376 rfl rfl rfl

/-- C2: for every sequence of step outcomes, `Provision` executes its
steps strictly in source order (the executed trace is always an
initial segment of the step sequence); if the step at position `i`
fails with error `e` after all earlier steps succeeded, exactly the
steps up to and including position `i` run and `e` is returned; and
when every step succeeds the whole sequence runs and nil is
returned. -/
theorem provision_ordered_abort (p : Centos.CentosProvisioner) (so : SwarmOptions)
    (ao : AuthOptions) (eo : EngineOptions) (oracle : Nat → Option Centos.ProvisionError) :
    ((Centos.provision p so ao eo oracle).1.1 <+: Centos.provisionSteps p)
    ∧ (∀ (i : Nat) (e : Centos.ProvisionError),
        (∀ j, j < i → oracle j = none) → oracle i = some e →
        i < (Centos.provisionSteps p).length →
        (Centos.provision p so ao eo oracle).1.1 = (Centos.provisionSteps p).take (i + 1)
        ∧ (Centos.provision p so ao eo oracle).1.2 = some e)
    ∧ ((∀ n, oracle n = none) →
        (Centos.provision p so ao eo oracle).1.1 = Centos.provisionSteps p
        ∧ (Centos.provision p so ao eo oracle).1.2 = none) := by
  refine ⟨?_, ?_, ?_⟩
  · exact runSteps_trace_initial oracle (Centos.provisionSteps p) 0
  · intro i e hnone hfail hlen
    have h := runSteps_first_fail oracle (Centos.provisionSteps p) 0 i e
      (fun j hj => by simpa using hnone j hj) (by simpa using hfail) hlen
    constructor
    · show (Centos.runSteps oracle (Centos.provisionSteps p) 0).1 = _
      rw [h]
    · show (Centos.runSteps oracle (Centos.provisionSteps p) 0).2 = _
      rw [h]
  · intro hok
    have h := runSteps_all_ok oracle hok (Centos.provisionSteps p) 0
    constructor
    · show (Centos.runSteps oracle (Centos.provisionSteps p) 0).1 = _
      rw [h]
    · show (Centos.runSteps oracle (Centos.provisionSteps p) 0).2 = _
      rw [h]

/-- Witness for C2: failing the `curl` package install (position 3)
executes exactly the first four steps — the firewalld configuration
command at position 4 is never issued — and returns that error. -/
theorem provision_ordered_abort_witness :
    (Centos.provision (Centos.newCentosProvisioner sampleDriver) {} sampleAuthOptions
        sampleEngineOptions failAtPackageOracle).1.1
      = (Centos.provisionSteps (Centos.newCentosProvisioner sampleDriver)).take 4
    ∧ (Centos.provision (Centos.newCentosProvisioner sampleDriver) {} sampleAuthOptions
        sampleEngineOptions failAtPackageOracle).1.2
      = some { message := "install failed" } :=
  (provision_ordered_abort (Centos.newCentosProvisioner sampleDriver) {} sampleAuthOptions
      sampleEngineOptions failAtPackageOracle).2.1 3 { message := "install failed" }
    (by decide) rfl (by decide)

/-- C3: a successful `Provision` run on a provisioner built by
`NewCentosProvisioner` executes the full step sequence; its trace
contains exactly one package-management step, namely the install of
"curl" (position 3), and it precedes the generic Docker engine
install (position 5). -/
theorem provision_installs_baseline_packages (d : Driver) (so : SwarmOptions) (ao : AuthOptions)
    (eo : EngineOptions) (oracle : Nat → Option Centos.ProvisionError)
    (hok : ∀ n, oracle n = none) :
    (Centos.provision (Centos.newCentosProvisioner d) so ao eo oracle).1.2 = none
    ∧ (Centos.provision (Centos.newCentosProvisioner d) so ao eo oracle).1.1
        = Centos.provisionSteps (Centos.newCentosProvisioner d)
    ∧ ((Centos.provision (Centos.newCentosProvisioner d) so ao eo oracle).1.1).filter Centos.isPackageStep
        = [Centos.ProvisionStep.packageStep "curl" PackageAction.install]
    ∧ ((Centos.provision (Centos.newCentosProvisioner d) so ao eo oracle).1.1).get? 3
        = some (Centos.ProvisionStep.packageStep "curl" PackageAction.install)
    ∧ ((Centos.provision (Centos.newCentosProvisioner d) so ao eo oracle).1.1).get? 5
        = some Centos.ProvisionStep.installDockerGenericStep := by
  have h := runSteps_all_ok oracle hok (Centos.provisionSteps (Centos.newCentosProvisioner d)) 0
  refine ⟨?_, ?_, ?_, ?_, ?_⟩
  · show (Centos.runSteps oracle (Centos.provisionSteps (Centos.newCentosProvisioner d)) 0).2 = _
    rw [h]
  · show (Centos.runSteps oracle (Centos.provisionSteps (Centos.newCentosProvisioner d)) 0).1 = _
    rw [h]
  · show ((Centos.runSteps oracle (Centos.provisionSteps (Centos.newCentosProvisioner d)) 0).1).filter
      Centos.isPackageStep = _
    rw [h]
    rfl
  · show ((Centos.runSteps oracle (Centos.provisionSteps (Centos.newCentosProvisioner d)) 0).1).get? 3 = _
    rw [h]
    rfl
  · show ((Centos.runSteps oracle (Centos.provisionSteps (Centos.newCentosProvisioner d)) 0).1).get? 5 = _
    rw [h]
    rfl

/-- Witness for C3 at a concrete driver with the all-success
oracle. -/
theorem provision_installs_baseline_packages_witness :
    ((Centos.provision (Centos.newCentosProvisioner sampleDriver) {} sampleAuthOptions
        sampleEngineOptions allOkOracle).1.1).filter Centos.isPackageStep
      = [Centos.ProvisionStep.packageStep "curl" PackageAction.install]
    ∧ ((Centos.provision (Centos.newCentosProvisioner sampleDriver) {} sampleAuthOptions
        sampleEngineOptions allOkOracle).1.1).get? 5
      = some Centos.ProvisionStep.installDockerGenericStep :=
  ⟨(provision_installs_baseline_packages sampleDriver {} sampleAuthOptions sampleEngineOptions
      allOkOracle (fun _ => rfl)).2.2.1,
   (provision_installs_baseline_packages sampleDriver {} sampleAuthOptions sampleEngineOptions
      allOkOracle (fun _ => rfl)).2.2.2.2⟩

/-- C6: in the template-based provisioner every action of the closed
set maps to a command of the shape `sudo -E yum -y <verb> <name>`
carrying the OS-specific verb and the package name; but in
`libmachine/provision/centos.go` the `switch` lacks an `Upgrade` arm,
so `Package("curl", Upgrade)` silently issues `sudo -E yum -y  curl`
with the action verb missing (no explicit failure), contradicting the
claim. -/
theorem legacyPackage_upgrade_missing_verb :
    CentosLegacy.packageCommand "curl" PackageAction.upgrade = "sudo -E yum -y  curl"
    ∧ ¬ ("upgrade".data <:+: (CentosLegacy.packageCommand "curl" PackageAction.upgrade).data)
    ∧ (∀ (name : String) (a : PackageAction),
        Centos.packageCommand name a
          = "sudo -E yum -y " ++ Centos.packageActionVerb a ++ (" " ++ name)) := by
  refine ⟨rfl, by decide, ?_⟩
  intro name a
  simp [Centos.packageCommand, String.append_assoc]

/-- C8: the readiness probe `dockerDaemonResponding` returns a plain
boolean: `true` exactly when the `sudo docker version` command
succeeds, `false` (not a propagated error) whenever the command
fails; and as soon as the probe is true at the current attempt, the
poller's wait completes successfully. -/
theorem dockerDaemonResponding_spec
    (ssh : String → Except Centos.SshError Centos.SshOutput)
    (sshAt : Nat → String → Except Centos.SshError Centos.SshOutput) (k n : Nat) :
    (Centos.dockerDaemonResponding ssh = true ↔ ∃ o, ssh "sudo docker version" = Except.ok o)
    ∧ (∀ e, ssh "sudo docker version" = Except.error e → Centos.dockerDaemonResponding ssh = false)
    ∧ (Centos.dockerDaemonResponding (sshAt k) = true →
        Centos.waitForFrom (Centos.dockerProbe sshAt) k (n + 1) = Except.ok ()) := by
  refine ⟨?_, ?_, ?_⟩
  · unfold Centos.dockerDaemonResponding
    cases h : ssh "sudo docker version" with
    | error e => simp
    | ok o => simp
  · intro e he
    unfold Centos.dockerDaemonResponding
    rw [he]
  · intro h
    simp [Centos.waitForFrom, Centos.dockerProbe, h]

/-- Witness for C8: with an SSH executor on which the check command
succeeds, the probe answers true and the poller returns success. -/
theorem dockerDaemonResponding_spec_witness :
    Centos.dockerDaemonResponding sampleSshOk = true
    ∧ Centos.waitFor (Centos.dockerProbe (fun _ => sampleSshOk)) 5 = Except.ok () :=
  ⟨(dockerDaemonResponding_spec sampleSshOk (fun _ => sampleSshOk) 0 4).1.mpr
      ⟨{ stdoutData := "Docker version" }, rfl⟩,
   (dockerDaemonResponding_spec sampleSshOk (fun _ => sampleSshOk) 0 4).2.2 rfl⟩
